import Mathlib

/-!
Verification of the Reflexion Mirror narrative engine
(`reflexion_mirror_app.py`).

Python strings are modelled as `List Char` (a Python `str` is a sequence
of code points); Python `bytes` as `List Nat` with entries below 256.
ASCII-range behaviour of `str.lower`, `str.upper`, `str.strip`,
`str.title` and `str.split` is modelled; all string constants in the
program are in the ASCII/Latin range handled identically by Python.
-/

set_option maxRecDepth 8192

namespace ReflexionMirror

/-- Model of Python's membership test `needle in hay` for strings:
`true` iff `needle` is a contiguous substring of `hay`. -/
def inStr : List Char → List Char → Bool
  | needle, [] => needle.isEmpty
  | needle, h :: t => needle.isPrefixOf (h :: t) || inStr needle t

/-- Model of `str.lower` (ASCII range). -/
def lowerStr (t : List Char) : List Char := t.map Char.toLower

/-- Model of `str.upper` (ASCII range). -/
def upperStr (t : List Char) : List Char := t.map Char.toUpper

/-- Python `str` whitespace characters (ASCII range). -/
def isPySpace (c : Char) : Bool :=
  c == ' ' || c == '\t' || c == '\n' || c == '\r' ||
  c == Char.ofNat 11 || c == Char.ofNat 12

/-- Model of `str.strip()`: remove leading and trailing whitespace. -/
def pyStrip (t : List Char) : List Char :=
  ((t.dropWhile isPySpace).reverse.dropWhile isPySpace).reverse

/-- Model of `str.split()` (no argument): split on whitespace runs,
discarding empty chunks. -/
def pySplit (t : List Char) : List (List Char) :=
  (t.splitOnP isPySpace).filter (fun w => !w.isEmpty)

/-- Helper for `pyTitle`: the boolean records whether the previous
character was alphabetic. -/
def pyTitleAux : List Char → Bool → List Char
  | [], _ => []
  | c :: t, prevAlpha =>
    if c.isAlpha then
      (if prevAlpha then c.toLower else c.toUpper) :: pyTitleAux t true
    else
      c :: pyTitleAux t false

/-- Model of `str.title()` (ASCII range): first letter of each run of
letters uppercased, the rest lowercased. -/
def pyTitle (t : List Char) : List Char := pyTitleAux t false

/-- Model of `sep.join(sections)`. -/
def joinWith (sep : List Char) : List (List Char) → List Char
  | [] => []
  | [s] => s
  | s :: rest => s ++ sep ++ joinWith sep rest

/-- Model of the Python slice `l[-n:]`. -/
def takeLast (n : Nat) (l : List Char) : List Char := l.drop (l.length - n)

/-- `extract_core_theme` (lines 222-228): lowercase the text, return the
first theme of the list occurring as a substring, else the first list
element; `none` models the `IndexError` on an empty theme list. -/
def extract_core_theme (text : List Char) (themes : List (List Char)) :
    Option (List Char) :=
  let text_lower := lowerStr text
  match themes.find? (fun theme => inStr theme text_lower) with
  | some theme => some theme
  | none => themes.head?

/-- The fixed theme table of `extract_themes` (lines 234-243), in source
insertion order. -/
def theme_words : List (List Char × List (List Char)) :=
  [ ( "loss".data, [ "lost".data, "gone".data, "ended".data, "died".data]),
    ( "betrayal".data, [ "betrayed".data, "trust".data, "lied".data, "deceived".data]),
    ( "failure".data, [ "failed".data, "mistake".data, "wrong".data, "error".data]),
    ( "awakening".data, [ "realized".data, "understood".data, "saw".data, "discovered".data]),
    ( "rebuilding".data, [ "built".data, "created".data, "started".data, "began".data]),
    ( "transformation".data, [ "changed".data, "became".data, "transformed".data, "evolved".data]),
    ( "freedom".data, [ "free".data, "liberated".data, "released".data, "escaped".data]),
    ( "integration".data, [ "whole".data, "complete".data, "integrated".data, "unified".data]) ]

/-- `extract_themes` (lines 230-250): themes whose triggers occur in the
lowercased text, in table order, truncated to three. -/
def extract_themes (text : List Char) : List (List Char) :=
  let text_lower := lowerStr text
  ((theme_words.filter
      (fun p => p.2.any (fun keyword => inStr keyword text_lower))).map
    Prod.fst).take 3

/-! ### SHA-256 (model of `hashlib.sha256`, FIPS 180-4) -/

/-- 2^32; all SHA-256 word arithmetic is taken modulo this. -/
def M32 : Nat := 4294967296

def rotr32 (x n : Nat) : Nat := ((x >>> n) ||| (x <<< (32 - n))) % M32

def bsig0 (x : Nat) : Nat := rotr32 x 2 ^^^ rotr32 x 13 ^^^ rotr32 x 22

def bsig1 (x : Nat) : Nat := rotr32 x 6 ^^^ rotr32 x 11 ^^^ rotr32 x 25

def ssig0 (x : Nat) : Nat := rotr32 x 7 ^^^ rotr32 x 18 ^^^ (x >>> 3)

def ssig1 (x : Nat) : Nat := rotr32 x 17 ^^^ rotr32 x 19 ^^^ (x >>> 10)

def chFun (x y z : Nat) : Nat := (x &&& y) ^^^ ((x ^^^ 4294967295) &&& z)

def majFun (x y z : Nat) : Nat := (x &&& y) ^^^ (x &&& z) ^^^ (y &&& z)

/-- The 64 SHA-256 round constants of FIPS 180-4 (decimal; the two
known-answer theorems below pin them against the standard). -/
def sha256K : List Nat :=
  [1116352408, 1899447441, 3049323471, 3921009573, 961987163, 1508970993,
   2453635748, 2870763221, 3624381080, 310598401, 607225278, 1426881987,
   1925078388, 2162078206, 2614888103, 3248222580, 3835390401, 4022224774,
   264347078, 604807628, 770255983, 1249150122, 1555081692, 1996064986,
   2554220882, 2821834349, 2952996808, 3210313671, 3336571891, 3584528711,
   113926993, 338241895, 666307205, 773529912, 1294757372, 1396182291,
   1695183700, 1986661051, 2177026350, 2456956037, 2730485921, 2820302411,
   3259730800, 3345764771, 3516065817, 3600352804, 4094571909, 275423344,
   430227734, 506948616, 659060556, 883997877, 958139571, 1322822218,
   1537002063, 1747873779, 1955562222, 2024104815, 2227730452, 2361852424,
   2428436474, 2756734187, 3204031479, 3329325298]

/-- The SHA-256 initial hash value (decimal). -/
def sha256H0 : List Nat :=
  [1779033703, 3144134277, 1013904242, 2773480762,
   1359893119, 2600822924, 528734635, 1541459225]

/-- Big-endian byte decomposition of `v` into `n` bytes. -/
def beBytes (n v : Nat) : List Nat :=
  (List.range n).map (fun i => (v >>> (8 * (n - 1 - i))) % 256)

/-- Big-endian word from a byte list. -/
def beWord (bs : List Nat) : Nat := bs.foldl (fun a c => a * 256 + c) 0

/-- SHA-256 message padding: `0x80`, zeros to 56 mod 64, then the
64-bit big-endian bit length. -/
def sha256Pad (msg : List Nat) : List Nat :=
  let l := msg.length
  let zeros := (64 - (l + 9) % 64) % 64
  msg ++ [128] ++ List.replicate zeros 0 ++ beBytes 8 (8 * l)

/-- Split a padded message into 64-byte blocks. -/
def sha256Chunks (padded : List Nat) : List (List Nat) :=
  (List.range (padded.length / 64)).map (fun i => (padded.drop (64 * i)).take 64)

/-- The sixteen 32-bit big-endian words of one 64-byte block. -/
def blockWords (block : List Nat) : List Nat :=
  (List.range 16).map (fun i => beWord ((block.drop (4 * i)).take 4))

/-- One step of the message-schedule extension, appending `W[t]`. -/
def schedStep (w : List Nat) : List Nat :=
  w ++ [(ssig1 (w.getD (w.length - 2) 0) + w.getD (w.length - 7) 0 +
         ssig0 (w.getD (w.length - 15) 0) + w.getD (w.length - 16) 0) % M32]

/-- One SHA-256 compression round on the state `[a,b,c,d,e,f,g,h]`. -/
def sha256Round (kw : Nat × Nat) (s : List Nat) : List Nat :=
  match s with
  | [a, b, c, d, e, f, g, h] =>
    let t1 := (h + bsig1 e + chFun e f g + kw.1 + kw.2) % M32
    let t2 := (bsig0 a + majFun a b c) % M32
    [(t1 + t2) % M32, a, b, c, (d + t1) % M32, e, f, g]
  | _ => s

/-- Process one 64-byte block. -/
def sha256Block (hs : List Nat) (block : List Nat) : List Nat :=
  let w := (List.range 48).foldl (fun w _ => schedStep w) (blockWords block)
  let s := (sha256K.zip w).foldl (fun s kw => sha256Round kw s) hs
  (hs.zip s).map (fun p => (p.1 + p.2) % M32)

/-- SHA-256 digest (32 bytes) of a byte message. -/
def sha256Bytes (msg : List Nat) : List Nat :=
  ((sha256Chunks (sha256Pad msg)).foldl sha256Block sha256H0).flatMap (beBytes 4)

def hexDigit (n : Nat) : Char :=
  if n < 10 then Char.ofNat (48 + n) else Char.ofNat (87 + n)

def byteToHex (b : Nat) : List Char := [hexDigit (b / 16), hexDigit (b % 16)]

/-- Model of `hashlib.sha256(..).hexdigest()`: lowercase hex digest. -/
def sha256Hex (msg : List Nat) : List Char := (sha256Bytes msg).flatMap byteToHex

/-- UTF-8 encoding of one code point (model of `str.encode()` per char). -/
def utf8EncodeChar (n : Nat) : List Nat :=
  if n < 128 then [n]
  else if n < 2048 then [192 ||| (n >>> 6), 128 ||| (n &&& 63)]
  else if n < 65536 then
    [224 ||| (n >>> 12), 128 ||| ((n >>> 6) &&& 63), 128 ||| (n &&& 63)]
  else
    [240 ||| (n >>> 18), 128 ||| ((n >>> 12) &&& 63),
     128 ||| ((n >>> 6) &&& 63), 128 ||| (n &&& 63)]

/-- Model of `str.encode()` (UTF-8). -/
def utf8Encode (t : List Char) : List Nat := t.flatMap (fun c => utf8EncodeChar c.toNat)

/-- `generate_transformation_hash` (lines 252-255): first 12 hex digits
of the SHA-256 digest of the concatenated 50-character prefixes. -/
def generate_transformation_hash (collapse build now : List Char) : List Char :=
  let combined := collapse.take 50 ++ build.take 50 ++ now.take 50
  (sha256Hex (utf8Encode combined)).take 12

/-! ### Archetype catalog (lines 39-88).
The non-ASCII `symbol` glyphs and the section markers below are written
with `\u` escapes reproducing the exact code points stored in the source
file. -/

structure Archetype where
  description : List Char
  symbol : List Char
  quote : List Char
  color : List Char
deriving DecidableEq, Repr

/-- The `ARCHETYPES` dict, in source insertion order. -/
def ARCHETYPES : List (List Char × Archetype) :=
  [ ( "phoenix".data,
      { description := "Rising from ashes, transformed by fire".data,
        symbol := "\uf8ff\u00fc\u00ee\u2022".data,
        quote := "What is to give light must endure burning. - Viktor Frankl".data,
        color := "#ff6b6b".data }),
    ( "alchemist".data,
      { description := "Transmuting pain into wisdom".data,
        symbol := "\u201a\u00f6\u00f3\u00d4\u220f\u00e8".data,
        quote := "One does not become enlightened by imagining figures of light, but by making the darkness conscious. - Carl Jung".data,
        color := "#4ecdc4".data }),
    ( "warrior".data,
      { description := "Forged in battle, tempered by trials".data,
        symbol := "\u201a\u00f6\u00ee\u00d4\u220f\u00e8".data,
        quote := "The wound is the place where the Light enters you. - Rumi".data,
        color := "#ff9f43".data }),
    ( "sage".data,
      { description := "Seeking truth through suffering".data,
        symbol := "\uf8ff\u00fc\u00b6\u00e2".data,
        quote := "The only true wisdom is in knowing you know nothing. - Socrates".data,
        color := "#a8e6cf".data }),
    ( "wanderer".data,
      { description := "Lost to find, broken to become whole".data,
        symbol := "\uf8ff\u00fc\u00df\u2260".data,
        quote := "Not all those who wander are lost. - J.R.R. Tolkien".data,
        color := "#c7ceea".data }),
    ( "architect".data,
      { description := "Building from ruins, designing destiny".data,
        symbol := "\uf8ff\u00fc\u00e8\u00f5\u00d4\u220f\u00e8".data,
        quote := "In the depth of winter, I finally learned that there was in me an invincible summer. - Albert Camus".data,
        color := "#b2bec3".data }),
    ( "mystic".data,
      { description := "Embracing the void to find the light".data,
        symbol := "\uf8ff\u00fc\u00ee\u00c6".data,
        quote := "The cave you fear to enter holds the treasure you seek. - Joseph Campbell".data,
        color := "#dfe6e9".data }),
    ( "rebel".data,
      { description := "Destroying to create, refusing to conform".data,
        symbol := "\u201a\u00f6\u00b0".data,
        quote := "You must be ready to burn yourself in your own flame; how could you rise anew if you have not first become ashes? - Nietzsche".data,
        color := "#fd79a8".data }) ]

/-- Model of `ARCHETYPES.get(key)` / `key in ARCHETYPES` lookups. -/
def archetypes_get (key : List Char) : Option Archetype :=
  (ARCHETYPES.find? (fun p => p.1 == key)).map Prod.snd

/-! ### Narrative composer (`generate_narrative`, lines 295-343) -/

/-- `generate_narrative`: three fixed phase sections with trimmed user
text, optionally an archetype section, joined by blank lines. The
archetype lookup lowercases the key; `title()` is applied to the raw
key in the found branch. -/
def generate_narrative (collapse build now archetype : List Char) : List Char :=
  let base : List (List Char) :=
    [ ( "„Äê COLLAPSE „Äë\nIn the depths of dissolution, you faced the void:\n".data)
        ++ pyStrip collapse,
      ( "\n„Äê COMPRESSION „Äë\nFrom the fragments, you forged something new:\n".data)
        ++ pyStrip build,
      ( "\n„Äê CONVERGENCE „Äë\nNow, you stand transformed:\n".data)
        ++ pyStrip now ]
  let sections : List (List Char) :=
    if archetype.isEmpty then base
    else
      match archetypes_get (lowerStr archetype) with
      | some arch_data =>
          base ++ [( "\n„Äê ARCHETYPE „Äë\nYou embody the ".data)
                    ++ pyTitle archetype ++ ( ": ".data) ++ arch_data.description
                    ++ ( "\n\n".data) ++ arch_data.quote]
      | none =>
          base ++ [( "\n„Äê ARCHETYPE „Äë\nYour archetype is still crystallizing in the cosmic forge".data)]
  joinWith ( "\n\n".data) sections

/-! ### Symbolic compressor (`generate_compressed_summary` and helpers,
lines 663-716) -/

/-- Stop-word set of `extract_keywords` (line 690). -/
def stop_words : List (List Char) :=
  [ "the".data, "a".data, "an".data, "and".data, "or".data, "but".data, "in".data,
    "on".data, "at".data, "to".data, "for".data, "of".data, "with".data, "by".data,
    "from".data, "was".data, "were".data, "been".data, "be".data, "have".data,
    "has".data, "had".data, "do".data, "does".data, "did".data, "will".data,
    "would".data, "could".data, "should".data, "may".data, "might".data,
    "must".data, "can".data, "is".data, "are".data, "am".data, "it".data,
    "i".data, "you".data, "he".data, "she".data, "they".data, "we".data,
    "me".data, "him".data, "her".data, "them".data, "my".data, "your".data,
    "his".data, "its".data, "our".data, "their".data]

/-- `extract_keywords` (lines 685-692): lowercase, split on whitespace,
drop stop words and short tokens, join the first three with spaces. -/
def extract_keywords (text : List Char) : List Char :=
  let words := pySplit (lowerStr text)
  let keywords := words.filter (fun w => !stop_words.contains w && decide (3 < w.length))
  if keywords.isEmpty then ( "the unnamed".data) else joinWith ( " ".data) (keywords.take 3)

/-- `get_lost_element` (lines 694-700). -/
def get_lost_element (collapse_text : List Char) : List Char :=
  match ([ "identity".data, "certainty".data, "control".data, "belonging".data,
           "purpose".data, "self".data].find?
          (fun pat => inStr pat (lowerStr collapse_text))) with
  | some pat => pat
  | none => "stability".data

/-- `get_emergent_quality` (lines 702-708). -/
def get_emergent_quality (build_text : List Char) : List Char :=
  match ([ "strength".data, "wisdom".data, "resilience".data, "understanding".data,
           "compassion".data, "power".data, "clarity".data].find?
          (fun pat => inStr pat (lowerStr build_text))) with
  | some pat => pat
  | none => "new foundations".data

/-- `get_essential_nature` (lines 710-716). -/
def get_essential_nature (now_text : List Char) : List Char :=
  match ([ "authenticity".data, "wholeness".data, "integration".data,
           "transformation".data, "truth".data, "freedom".data].find?
          (fun pat => inStr pat (lowerStr now_text))) with
  | some pat => pat
  | none => "irreducible essence".data

/-- The dict returned by `generate_compressed_summary`; the optional
`Archetypal_Pattern` key is modelled as an `Option` field (`none` means
the key is absent). -/
structure CompressedSummary where
  Collapse : List Char
  Compression : List Char
  Convergence : List Char
  Archetypal_Pattern : Option (List Char)
deriving DecidableEq, Repr

/-- `generate_compressed_summary` (lines 663-683). Note the archetype
membership test is on the raw key, without lowercasing. -/
def generate_compressed_summary (collapse build now archetype : List Char) :
    CompressedSummary :=
  let collapse_keywords := extract_keywords collapse
  let build_keywords := extract_keywords build
  let now_keywords := extract_keywords now
  { Collapse := ( "The dissolution began when ".data) ++ collapse_keywords
      ++ ( " shattered the illusion of ".data) ++ get_lost_element collapse,
    Compression := ( "Through ".data) ++ build_keywords
      ++ ( ", the fragments crystallized into ".data) ++ get_emergent_quality build,
    Convergence := ( "Now standing as ".data) ++ now_keywords
      ++ ( ", embodying the truth of ".data) ++ get_essential_nature now,
    Archetypal_Pattern :=
      if archetype.isEmpty then none
      else (archetypes_get archetype).map (fun arch_data =>
        ( "Walking the ".data) ++ archetype ++ ( "\x27s path: ".data)
          ++ arch_data.description) }

/-! ### DNA and share code (lines 195-220, 257-267) -/

structure ReflexionDNA where
  collapse_root : List Char
  emergent_trait : List Char
  final_state : List Char
  archetype : List Char
  theme_chain : List (List Char)
  transformation_hash : List Char
deriving DecidableEq, Repr

/-- `generate_reflexion_dna` (lines 195-220); `none` would model the
unreachable `IndexError` branch of `extract_core_theme` on an empty
theme list. -/
def generate_reflexion_dna (collapse build now archetype : List Char) :
    Option ReflexionDNA :=
  match extract_core_theme collapse
          [ "control".data, "identity".data, "trust".data, "purpose".data,
            "belonging".data, "certainty".data],
        extract_core_theme build
          [ "resilience".data, "wisdom".data, "compassion".data, "strength".data,
            "clarity".data, "freedom".data],
        extract_core_theme now
          [ "authentic".data, "integrated".data, "empowered".data, "aligned".data,
            "whole".data, "awakened".data] with
  | some collapse_root, some emergent_trait, some final_state =>
      some
        { collapse_root := collapse_root,
          emergent_trait := emergent_trait,
          final_state := final_state,
          archetype := if archetype.isEmpty then ( "wanderer".data) else archetype,
          theme_chain :=
            [collapse, build, now].filterMap (fun text => (extract_themes text).head?),
          transformation_hash := generate_transformation_hash collapse build now }
  | _, _, _ => none

/-- `generate_share_code` (lines 257-267); `timestamp` is the value of
`int(timestamp.timestamp())`, the Unix-epoch seconds. -/
def generate_share_code (reflection_id archetype : List Char) (timestamp : Nat) :
    List Char :=
  let archPre := if !archetype.isEmpty then upperStr (archetype.take 3) else ( "WND".data)
  let time_component := takeLast 4 (Nat.toDigits 10 timestamp)
  let id_component := upperStr (reflection_id.take 4)
  archPre ++ ( "-".data) ++ time_component ++ ( "-".data) ++ id_component

/-! ### Specification-side definitions (for refinement comparison only;
these follow the spec's words, not the code) -/

/-- Case-insensitive substring occurrence, as the spec's phrase "occurs
case-insensitively as a substring of the text" reads. -/
def occursCI (needle hay : List Char) : Bool :=
  inStr (lowerStr needle) (lowerStr hay)

/-- `extractCoreTheme` as the claim words it: the first theme that
occurs case-insensitively in the text, else the first list element. -/
def extractCoreThemeSpec (text : List Char) (themes : List (List Char)) :
    Option (List Char) :=
  match themes.find? (fun theme => occursCI theme text) with
  | some theme => some theme
  | none => themes.head?

/-! ### Section constants of the narrative, for stating theorems -/

def sectionCollapse (collapse : List Char) : List Char :=
  ( "„Äê COLLAPSE „Äë\nIn the depths of dissolution, you faced the void:\n".data)
    ++ pyStrip collapse

def sectionCompression (build : List Char) : List Char :=
  ( "\n„Äê COMPRESSION „Äë\nFrom the fragments, you forged something new:\n".data)
    ++ pyStrip build

def sectionConvergence (now : List Char) : List Char :=
  ( "\n„Äê CONVERGENCE „Äë\nNow, you stand transformed:\n".data)
    ++ pyStrip now

def sectionArchetypeFound (archetype : List Char) (arch_data : Archetype) : List Char :=
  ( "\n„Äê ARCHETYPE „Äë\nYou embody the ".data) ++ pyTitle archetype
    ++ ( ": ".data) ++ arch_data.description ++ ( "\n\n".data) ++ arch_data.quote

def sectionArchetypeFallback : List Char :=
  ( "\n„Äê ARCHETYPE „Äë\nYour archetype is still crystallizing in the cosmic forge".data)

/-! ### Shared helper lemmas -/

/-- `find?` returns the first element satisfying the predicate: if
everything before `th` fails and `th` succeeds, the result is `th`. -/
theorem findFirst {α : Type} (p : α → Bool) (pre post : List α) (th : α)
    (hpre : ∀ x ∈ pre, p x = false) (hth : p th = true) :
    (pre ++ th :: post).find? p = some th := by
  induction pre with
  | nil => simpa using List.find?_cons_of_pos post hth
  | cons a as ih =>
      have ha : p a = false := hpre a (by simp)
      rw [List.cons_append, List.find?_cons_of_neg _ (by simp [ha])]
      exact ih (fun x hx => hpre x (by simp [hx]))

/-- `find?` only depends on the predicate's values on the list. -/
theorem findCongr {α : Type} (p q : α → Bool) (l : List α)
    (h : ∀ a ∈ l, p a = q a) : l.find? p = l.find? q := by
  induction l with
  | nil => rfl
  | cons a as ih =>
      by_cases hq : q a = true
      · rw [List.find?_cons_of_pos _ (by rw [h a (by simp)]; exact hq),
          List.find?_cons_of_pos _ hq]
      · rw [List.find?_cons_of_neg _ (by rw [h a (by simp)]; simpa using hq),
          List.find?_cons_of_neg _ (by simpa using hq)]
        exact ih (fun x hx => h x (by simp [hx]))

/-- `any` only depends on the predicate's values on the list. -/
theorem anyCongr {α : Type} (p q : α → Bool) (l : List α)
    (h : ∀ a ∈ l, p a = q a) : l.any p = l.any q := by
  induction l with
  | nil => rfl
  | cons a as ih =>
      simp only [List.any_cons, h a (by simp), ih (fun x hx => h x (by simp [hx]))]

/-- `extract_core_theme` is total on non-empty theme lists and produces
a list element. -/
theorem extract_core_theme_cons (text th : List Char) (ts : List (List Char)) :
    ∃ r, extract_core_theme text (th :: ts) = some r ∧ r ∈ th :: ts := by
  cases hf : (th :: ts).find? (fun theme => inStr theme (lowerStr text)) with
  | some x =>
      exact ⟨x, by simp [extract_core_theme, hf], List.mem_of_find?_eq_some hf⟩
  | none =>
      exact ⟨th, by simp [extract_core_theme, hf], by simp⟩

/-- `generate_reflexion_dna` always succeeds; its three root fields come
from the corresponding fixed theme lists, and its archetype field is the
raw key with the `"wanderer"` fallback for the empty key. -/
theorem generate_reflexion_dna_some (collapse build now archetype : List Char) :
    ∃ d, generate_reflexion_dna collapse build now archetype = some d ∧
      d.collapse_root ∈ [ "control".data, "identity".data, "trust".data,
        "purpose".data, "belonging".data, "certainty".data] ∧
      d.emergent_trait ∈ [ "resilience".data, "wisdom".data, "compassion".data,
        "strength".data, "clarity".data, "freedom".data] ∧
      d.final_state ∈ [ "authentic".data, "integrated".data, "empowered".data,
        "aligned".data, "whole".data, "awakened".data] ∧
      d.archetype = (if archetype.isEmpty then ( "wanderer".data) else archetype) := by
  obtain ⟨r1, h1, m1⟩ := extract_core_theme_cons collapse ( "control".data)
    [ "identity".data, "trust".data, "purpose".data, "belonging".data, "certainty".data]
  obtain ⟨r2, h2, m2⟩ := extract_core_theme_cons build ( "resilience".data)
    [ "wisdom".data, "compassion".data, "strength".data, "clarity".data, "freedom".data]
  obtain ⟨r3, h3, m3⟩ := extract_core_theme_cons now ( "authentic".data)
    [ "integrated".data, "empowered".data, "aligned".data, "whole".data, "awakened".data]
  refine ⟨⟨r1, r2, r3, if archetype.isEmpty then ( "wanderer".data) else archetype,
    [collapse, build, now].filterMap (fun text => (extract_themes text).head?),
    generate_transformation_hash collapse build now⟩, ?_, m1, m2, m3, rfl⟩
  simp only [generate_reflexion_dna, h1, h2, h3]

/-- Every key of the archetype catalog is already lowercase. -/
theorem archetypes_keys_lower : ∀ p ∈ ARCHETYPES, lowerStr p.1 = p.1 := by decide

/-- If the lowercased key is not in the catalog, neither is the raw key. -/
theorem archetypes_get_raw_none (key : List Char)
    (h : archetypes_get (lowerStr key) = none) : archetypes_get key = none := by
  cases hf : ARCHETYPES.find? (fun p => p.1 == key) with
  | none => simp [archetypes_get, hf]
  | some pr =>
      have hb : (pr.1 == key) = true := by
        have hp := List.find?_some hf
        simpa using hp
      have hkey : pr.1 = key := eq_of_beq hb
      have hlow : lowerStr key = key := by
        rw [← hkey]; exact archetypes_keys_lower pr (List.mem_of_find?_eq_some hf)
      rw [hlow] at h
      simp [archetypes_get, hf] at h

/-! ### Known-answer tests pinning the SHA-256 model to the standard -/

/-- FIPS 180-4 test vector: digest of the empty message. -/
theorem sha256Hex_empty_kat :
    sha256Hex [] =
      ( "e3b0c44298fc1c149afbf4c8996fb92427ae41e4649b934ca495991b7852b855".data) := by
  decide

/-- FIPS 180-4 test vector: digest of `"abc"`. -/
theorem sha256Hex_abc_kat :
    sha256Hex (utf8Encode ( "abc".data)) =
      ( "ba7816bf8f01cfea414140de5dae2223b00361a396177a9cb410ff61f20015ad".data) := by
  decide

/-! ### Claims -/

/-- C2, counterexample: with text `"ABC"` and theme list `["x", "ABC"]`,
the element `"ABC"` occurs case-insensitively in the text and `"x"` does
not, so the claim's case-insensitive first-match description returns
`"ABC"` (as `extractCoreThemeSpec` does) — but the code matches the
theme verbatim against the lowercased text only, finds nothing, and
returns the fallback `"x"`. -/
theorem claim_C2_counterexample :
    extract_core_theme ( "ABC".data) [ "x".data, "ABC".data] = some ( "x".data) ∧
    extractCoreThemeSpec ( "ABC".data) [ "x".data, "ABC".data] = some ( "ABC".data) ∧
    occursCI ( "ABC".data) ( "ABC".data) = true ∧
    occursCI ( "x".data) ( "ABC".data) = false := by decide

/-- C2 (amended): for every text and non-empty theme list,
`extract_core_theme` returns the first element of the list that occurs
verbatim as a substring of the lowercased text; if no element occurs it
returns the first element of the list, never an error or empty value.
When every theme in the list is lowercase (as at all call sites) this
matching coincides with the claim's case-insensitive description. -/
theorem claim_C2_extract_core_theme (text : List Char) (themes : List (List Char))
    (hne : themes ≠ []) :
    (∃ r, extract_core_theme text themes = some r ∧ r ∈ themes) ∧
    (∀ pre th post, themes = pre ++ th :: post →
      inStr th (lowerStr text) = true →
      (∀ q ∈ pre, inStr q (lowerStr text) = false) →
      extract_core_theme text themes = some th) ∧
    ((∀ th ∈ themes, inStr th (lowerStr text) = false) →
      extract_core_theme text themes = themes.head?) ∧
    ((∀ th ∈ themes, lowerStr th = th) →
      extract_core_theme text themes = extractCoreThemeSpec text themes) := by
  refine ⟨?_, ?_, ?_, ?_⟩
  · cases themes with
    | nil => exact absurd rfl hne
    | cons th ts => exact extract_core_theme_cons text th ts
  · intro pre th post heq hth hpre
    subst heq
    simp [extract_core_theme,
      findFirst (fun theme => inStr theme (lowerStr text)) pre post th hpre hth]
  · intro h
    have hf : themes.find? (fun theme => inStr theme (lowerStr text)) = none :=
      List.find?_eq_none.mpr (fun x hx => by simp [h x hx])
    simp [extract_core_theme, hf]
  · intro h
    have hc := findCongr (fun theme => inStr theme (lowerStr text))
      (fun theme => occursCI theme text) themes
      (fun a ha => by simp [occursCI, h a ha])
    simp only [extract_core_theme, extractCoreThemeSpec, hc]

/-- C2, witness: on text `"xx BETA yy"` with themes `["alpha", "beta"]`,
the first (and only) verbatim match in the lowercased text is `"beta"`,
and the amended theorem yields exactly that result. -/
theorem claim_C2_witness :
    ([ "alpha".data, "beta".data] : List (List Char)) ≠ [] ∧
    extract_core_theme ( "xx BETA yy".data) [ "alpha".data, "beta".data] =
      some ( "beta".data) := by
  refine ⟨by decide, ?_⟩
  exact (claim_C2_extract_core_theme ( "xx BETA yy".data)
      [ "alpha".data, "beta".data] (by decide)).2.1
    [ "alpha".data] ( "beta".data) [] (by decide) (by decide) (by decide)

/-- C6: with an empty archetype argument, the narrative consists of
exactly the three phase sections (no ARCHETYPE section), and the DNA's
archetype field is the literal fallback `"wanderer"`. -/
theorem claim_C6_empty_archetype (collapse build now : List Char) :
    generate_narrative collapse build now [] =
      sectionCollapse collapse ++ ( "\n\n".data) ++ sectionCompression build
        ++ ( "\n\n".data) ++ sectionConvergence now ∧
    ∃ d, generate_reflexion_dna collapse build now [] = some d ∧
      d.archetype = ( "wanderer".data) := by
  constructor
  · simp [generate_narrative, joinWith, sectionCollapse, sectionCompression,
      sectionConvergence, List.append_assoc]
  · obtain ⟨d, hd, _, _, _, ha⟩ := generate_reflexion_dna_some collapse build now []
    exact ⟨d, hd, by simpa using ha⟩

/-- C10: DNA generation is total and its `collapse_root`,
`emergent_trait` and `final_state` fields always belong to the
respective fixed six-element theme lists; the error branch of
`extract_core_theme` (empty theme list) is unreachable here. -/
theorem claim_C10_dna_fields (collapse build now archetype : List Char) :
    ∃ d, generate_reflexion_dna collapse build now archetype = some d ∧
      d.collapse_root ∈ [ "control".data, "identity".data, "trust".data,
        "purpose".data, "belonging".data, "certainty".data] ∧
      d.emergent_trait ∈ [ "resilience".data, "wisdom".data, "compassion".data,
        "strength".data, "clarity".data, "freedom".data] ∧
      d.final_state ∈ [ "authentic".data, "integrated".data, "empowered".data,
        "aligned".data, "whole".data, "awakened".data] := by
  obtain ⟨d, hd, m1, m2, m3, _⟩ :=
    generate_reflexion_dna_some collapse build now archetype
  exact ⟨d, hd, m1, m2, m3⟩

/-- C4: the narrative always opens with the COLLAPSE, COMPRESSION and
CONVERGENCE sections in that fixed order — each a fixed lead-in followed
by the trimmed input, joined by blank lines — and when the archetype
argument is non-empty and its lowercased form resolves in the catalog,
the ARCHETYPE section with the title-cased key, description and quote is
appended after them. -/
theorem claim_C4_generate_narrative (collapse build now archetype : List Char) :
    (∃ tail, generate_narrative collapse build now archetype =
      sectionCollapse collapse ++ ( "\n\n".data) ++ sectionCompression build
        ++ ( "\n\n".data) ++ sectionConvergence now ++ tail) ∧
    (∀ arch_data, archetype ≠ [] →
      archetypes_get (lowerStr archetype) = some arch_data →
      generate_narrative collapse build now archetype =
        sectionCollapse collapse ++ ( "\n\n".data) ++ sectionCompression build
          ++ ( "\n\n".data) ++ sectionConvergence now ++ ( "\n\n".data)
          ++ sectionArchetypeFound archetype arch_data) := by
  constructor
  · cases archetype with
    | nil =>
        refine ⟨[], ?_⟩
        simp [generate_narrative, joinWith, sectionCollapse, sectionCompression,
          sectionConvergence, List.append_assoc]
    | cons hd tl =>
        cases hg : archetypes_get (lowerStr (hd :: tl)) with
        | some arch_data =>
            refine ⟨( "\n\n".data) ++ sectionArchetypeFound (hd :: tl) arch_data, ?_⟩
            simp only [generate_narrative, List.isEmpty_cons, Bool.false_eq_true,
              if_false, hg, List.cons_append, List.nil_append, joinWith,
              sectionCollapse, sectionCompression, sectionConvergence,
              sectionArchetypeFound, List.append_assoc]
        | none =>
            refine ⟨( "\n\n".data) ++ sectionArchetypeFallback, ?_⟩
            simp only [generate_narrative, List.isEmpty_cons, Bool.false_eq_true,
              if_false, hg, List.cons_append, List.nil_append, joinWith,
              sectionCollapse, sectionCompression, sectionConvergence,
              sectionArchetypeFallback, List.append_assoc]
  · intro arch_data hne hg
    cases archetype with
    | nil => exact absurd rfl hne
    | cons hd tl =>
        simp [generate_narrative, hg, joinWith, sectionCollapse,
          sectionCompression, sectionConvergence, sectionArchetypeFound,
          List.append_assoc]

/-- C4, witness: the archetype `"phoenix"` resolves in the catalog and
the narrative carries the full ARCHETYPE section. -/
theorem claim_C4_witness :
    ( "phoenix".data : List Char) ≠ [] ∧
    archetypes_get (lowerStr ( "phoenix".data)) =
      some ⟨ "Rising from ashes, transformed by fire".data,
        "\uf8ff\u00fc\u00ee\u2022".data,
        "What is to give light must endure burning. - Viktor Frankl".data,
        "#ff6b6b".data⟩ ∧
    generate_narrative ( "c".data) ( "b".data) ( "n".data) ( "phoenix".data) =
      sectionCollapse ( "c".data) ++ ( "\n\n".data) ++ sectionCompression ( "b".data)
        ++ ( "\n\n".data) ++ sectionConvergence ( "n".data) ++ ( "\n\n".data)
        ++ sectionArchetypeFound ( "phoenix".data)
          ⟨ "Rising from ashes, transformed by fire".data,
            "\uf8ff\u00fc\u00ee\u2022".data,
            "What is to give light must endure burning. - Viktor Frankl".data,
            "#ff6b6b".data⟩ := by
  refine ⟨by decide, by decide, ?_⟩
  exact (claim_C4_generate_narrative ( "c".data) ( "b".data) ( "n".data)
    ( "phoenix".data)).2 _ (by decide) (by decide)

/-- C5: a non-empty archetype key absent from the catalog makes the
three operations disagree: the narrative gets the "still crystallizing"
fallback ARCHETYPE section, the compressed summary omits the
`Archetypal_Pattern` key entirely, and the DNA stores the key verbatim
(no `"wanderer"` fallback). -/
theorem claim_C5_unknown_archetype (collapse build now archetype : List Char)
    (hne : archetype ≠ []) (hnone : archetypes_get (lowerStr archetype) = none) :
    generate_narrative collapse build now archetype =
      sectionCollapse collapse ++ ( "\n\n".data) ++ sectionCompression build
        ++ ( "\n\n".data) ++ sectionConvergence now ++ ( "\n\n".data)
        ++ sectionArchetypeFallback ∧
    (generate_compressed_summary collapse build now archetype).Archetypal_Pattern =
      none ∧
    ∃ d, generate_reflexion_dna collapse build now archetype = some d ∧
      d.archetype = archetype := by
  refine ⟨?_, ?_, ?_⟩
  · cases archetype with
    | nil => exact absurd rfl hne
    | cons hd tl =>
        simp [generate_narrative, hnone, joinWith, sectionCollapse,
          sectionCompression, sectionConvergence, sectionArchetypeFallback,
          List.append_assoc]
  · have hraw := archetypes_get_raw_none archetype hnone
    cases archetype with
    | nil => exact absurd rfl hne
    | cons hd tl => simp [generate_compressed_summary, hraw]
  · obtain ⟨d, hd, _, _, _, ha⟩ :=
      generate_reflexion_dna_some collapse build now archetype
    refine ⟨d, hd, ?_⟩
    rw [ha]
    cases archetype with
    | nil => exact absurd rfl hne
    | cons hd tl => simp

/-- C5, witness: the key `"unicorn"` is non-empty and not in the
catalog; the compressed summary omits the archetypal pattern. -/
theorem claim_C5_witness :
    ( "unicorn".data : List Char) ≠ [] ∧
    archetypes_get (lowerStr ( "unicorn".data)) = none ∧
    (generate_compressed_summary ( "c".data) ( "b".data) ( "n".data)
      ( "unicorn".data)).Archetypal_Pattern = none := by
  refine ⟨by decide, by decide, ?_⟩
  exact (claim_C5_unknown_archetype ( "c".data) ( "b".data) ( "n".data)
    ( "unicorn".data) (by decide) (by decide)).2.1

/-- C9: an archetype key matching a catalog key only up to letter case
is found by the narrative (which lowercases before lookup) but missed by
the compressed summary (which tests membership on the raw key), so the
narrative carries the full ARCHETYPE section while `Archetypal_Pattern`
is absent. -/
theorem claim_C9_case_normalization (collapse build now archetype : List Char)
    (arch_data : Archetype)
    (hlow : archetypes_get (lowerStr archetype) = some arch_data)
    (hraw : archetypes_get archetype = none) :
    generate_narrative collapse build now archetype =
      sectionCollapse collapse ++ ( "\n\n".data) ++ sectionCompression build
        ++ ( "\n\n".data) ++ sectionConvergence now ++ ( "\n\n".data)
        ++ sectionArchetypeFound archetype arch_data ∧
    (generate_compressed_summary collapse build now archetype).Archetypal_Pattern =
      none := by
  have hne : archetype ≠ [] := by
    intro h
    subst h
    have hempty : archetypes_get (lowerStr ([] : List Char)) = none := by decide
    rw [hempty] at hlow
    exact Option.noConfusion hlow
  constructor
  · cases archetype with
    | nil => exact absurd rfl hne
    | cons hd tl =>
        simp [generate_narrative, hlow, joinWith, sectionCollapse,
          sectionCompression, sectionConvergence, sectionArchetypeFound,
          List.append_assoc]
  · cases archetype with
    | nil => exact absurd rfl hne
    | cons hd tl => simp [generate_compressed_summary, hraw]

/-- C9, witness: `"Phoenix"` resolves after lowercasing but not raw, so
the compressed summary omits the archetypal pattern for it. -/
theorem claim_C9_witness :
    archetypes_get (lowerStr ( "Phoenix".data)) =
      some ⟨ "Rising from ashes, transformed by fire".data,
        "\uf8ff\u00fc\u00ee\u2022".data,
        "What is to give light must endure burning. - Viktor Frankl".data,
        "#ff6b6b".data⟩ ∧
    archetypes_get ( "Phoenix".data) = none ∧
    (generate_compressed_summary ( "c".data) ( "b".data) ( "n".data)
      ( "Phoenix".data)).Archetypal_Pattern = none := by
  refine ⟨by decide, by decide, ?_⟩
  exact (claim_C9_case_normalization ( "c".data) ( "b".data) ( "n".data)
    ( "Phoenix".data)
    ⟨ "Rising from ashes, transformed by fire".data,
      "\uf8ff\u00fc\u00ee\u2022".data,
      "What is to give light must endure burning. - Viktor Frankl".data,
      "#ff6b6b".data⟩ (by decide) (by decide)).2

/-- C1: `generate_transformation_hash` is the first 12 hex characters
of the SHA-256 digest of the UTF-8 bytes of the concatenated first-50
character prefixes of the three phases, with no separators; it depends
only on those prefixes, and appending text after character 50 of any
phase leaves it unchanged. -/
theorem claim_C1_transformation_hash (collapse build now : List Char) :
    generate_transformation_hash collapse build now =
      (sha256Hex (utf8Encode
        (collapse.take 50 ++ build.take 50 ++ now.take 50))).take 12 ∧
    (∀ collapse2 build2 now2, collapse.take 50 = collapse2.take 50 →
      build.take 50 = build2.take 50 → now.take 50 = now2.take 50 →
      generate_transformation_hash collapse build now =
        generate_transformation_hash collapse2 build2 now2) ∧
    (∀ extra, 50 ≤ collapse.length →
      generate_transformation_hash (collapse ++ extra) build now =
        generate_transformation_hash collapse build now) ∧
    (∀ extra, 50 ≤ build.length →
      generate_transformation_hash collapse (build ++ extra) now =
        generate_transformation_hash collapse build now) ∧
    (∀ extra, 50 ≤ now.length →
      generate_transformation_hash collapse build (now ++ extra) =
        generate_transformation_hash collapse build now) := by
  refine ⟨rfl, ?_, ?_, ?_, ?_⟩
  · intro collapse2 build2 now2 h1 h2 h3
    simp only [generate_transformation_hash, h1, h2, h3]
  · intro extra h
    have ht : (collapse ++ extra).take 50 = collapse.take 50 := by
      rw [List.take_append_eq_append_take]
      simp [Nat.sub_eq_zero_of_le h]
    simp only [generate_transformation_hash, ht]
  · intro extra h
    have ht : (build ++ extra).take 50 = build.take 50 := by
      rw [List.take_append_eq_append_take]
      simp [Nat.sub_eq_zero_of_le h]
    simp only [generate_transformation_hash, ht]
  · intro extra h
    have ht : (now ++ extra).take 50 = now.take 50 := by
      rw [List.take_append_eq_append_take]
      simp [Nat.sub_eq_zero_of_le h]
    simp only [generate_transformation_hash, ht]

/-- C1, witness: on a 50-character collapse text, appending a tail does
not change the transformation hash. -/
theorem claim_C1_witness :
    50 ≤ ( "aaaaaaaaaaaaaaaaaaaaaaaaaaaaaaaaaaaaaaaaaaaaaaaaaa".data : List Char).length ∧
    generate_transformation_hash
      (( "aaaaaaaaaaaaaaaaaaaaaaaaaaaaaaaaaaaaaaaaaaaaaaaaaa".data) ++ ( " tail".data))
      ( "b".data) ( "c".data) =
      generate_transformation_hash
        ( "aaaaaaaaaaaaaaaaaaaaaaaaaaaaaaaaaaaaaaaaaaaaaaaaaa".data)
        ( "b".data) ( "c".data) := by
  refine ⟨by decide, ?_⟩
  exact (claim_C1_transformation_hash
      ( "aaaaaaaaaaaaaaaaaaaaaaaaaaaaaaaaaaaaaaaaaaaaaaaaaa".data)
      ( "b".data) ( "c".data)).2.2.1 ( " tail".data) (by decide)

/-- C3: `extract_themes` returns exactly the labels of the fixed table
whose triggers occur case-insensitively in the text — in table insertion
order, each at most once, truncated to the first three — and returns the
empty list when no trigger matches. -/
theorem claim_C3_extract_themes (text : List Char) :
    extract_themes text =
      ((theme_words.filter (fun p => p.2.any (fun kw => occursCI kw text))).map
        Prod.fst).take 3 ∧
    (extract_themes text).length ≤ 3 ∧
    (extract_themes text).Nodup ∧
    List.Sublist (extract_themes text) (theme_words.map Prod.fst) ∧
    (∀ l kws, (l, kws) ∈ theme_words →
      (∀ kw ∈ kws, inStr kw (lowerStr text) = false) →
      l ∉ extract_themes text) ∧
    ((∀ p ∈ theme_words, ∀ kw ∈ p.2, inStr kw (lowerStr text) = false) →
      extract_themes text = []) := by
  have hlow : ∀ p ∈ theme_words, ∀ kw ∈ p.2, lowerStr kw = kw := by decide
  have hsub : List.Sublist (extract_themes text) (theme_words.map Prod.fst) := by
    simp only [extract_themes]
    exact (List.take_sublist _ _).trans
      (List.Sublist.map _ (List.filter_sublist _))
  refine ⟨?_, ?_, ?_, hsub, ?_, ?_⟩
  · have hfc : theme_words.filter
        (fun p => p.2.any (fun kw => inStr kw (lowerStr text))) =
        theme_words.filter (fun p => p.2.any (fun kw => occursCI kw text)) :=
      List.filter_congr (fun p hp =>
        anyCongr _ _ _ (fun kw hkw => by simp [occursCI, hlow p hp kw hkw]))
    simp only [extract_themes, hfc]
  · simp only [extract_themes]
    exact List.length_take_le 3 _
  · exact List.Nodup.sublist hsub (by decide)
  · intro l kws hmem hfail hl
    have huniq : ∀ p ∈ theme_words, ∀ q ∈ theme_words, p.1 = q.1 → p.2 = q.2 := by
      decide
    have hl2 : l ∈ (theme_words.filter
        (fun p => p.2.any (fun kw => inStr kw (lowerStr text)))).map Prod.fst :=
      List.mem_of_mem_take (by simpa [extract_themes] using hl)
    obtain ⟨pair, hpair, hfst⟩ := List.mem_map.mp hl2
    obtain ⟨hpmem, hpred⟩ := List.mem_filter.mp hpair
    obtain ⟨kw, hkw, hin⟩ := List.any_eq_true.mp hpred
    have hsnd : pair.2 = kws := huniq pair hpmem (l, kws) hmem (by rw [hfst])
    rw [hsnd] at hkw
    simp [hfail kw hkw] at hin
  · intro h
    have hnil : theme_words.filter
        (fun p => p.2.any (fun kw => inStr kw (lowerStr text))) = [] := by
      rw [List.filter_eq_nil_iff]
      intro p hp hany
      obtain ⟨kw, hkw, hin⟩ := List.any_eq_true.mp hany
      simp [h p hp kw hkw] at hin
    simp [extract_themes, hnil]

/-- C3, witness: on the text `"zzz"` no trigger matches and the result
is the empty list. -/
theorem claim_C3_witness :
    (∀ p ∈ theme_words, ∀ kw ∈ p.2, inStr kw (lowerStr ( "zzz".data)) = false) ∧
    extract_themes ( "zzz".data) = [] := by
  refine ⟨by decide, ?_⟩
  exact (claim_C3_extract_themes ( "zzz".data)).2.2.2.2.2 (by decide)

/-- C7: the share code is `prefix-time-id` with the uppercased 3-char
archetype head (literal `"WND"` for an empty archetype), the last four
decimal digits of the epoch-second timestamp, and the uppercased 4-char
reflection-id head; in particular the documented example holds. -/
theorem claim_C7_generate_share_code (reflection_id archetype : List Char)
    (timestamp : Nat) :
    (archetype ≠ [] →
      generate_share_code reflection_id archetype timestamp =
        upperStr (archetype.take 3) ++ ( "-".data)
          ++ takeLast 4 (Nat.toDigits 10 timestamp) ++ ( "-".data)
          ++ upperStr (reflection_id.take 4)) ∧
    (archetype = [] →
      generate_share_code reflection_id archetype timestamp =
        ( "WND".data) ++ ( "-".data)
          ++ takeLast 4 (Nat.toDigits 10 timestamp) ++ ( "-".data)
          ++ upperStr (reflection_id.take 4)) ∧
    generate_share_code ( "abcd1234".data) ( "Phoenix".data) 1700000000 =
      ( "PHO-0000-ABCD".data) := by
  refine ⟨?_, ?_, by decide⟩
  · intro hne
    cases archetype with
    | nil => exact absurd rfl hne
    | cons hd tl => rfl
  · intro he
    subst he
    rfl

/-- C7, witness: the general prefix formula applied to the documented
example input. -/
theorem claim_C7_witness :
    ( "Phoenix".data : List Char) ≠ [] ∧
    generate_share_code ( "abcd1234".data) ( "Phoenix".data) 1700000000 =
      upperStr (( "Phoenix".data).take 3) ++ ( "-".data)
        ++ takeLast 4 (Nat.toDigits 10 1700000000) ++ ( "-".data)
        ++ upperStr (( "abcd1234".data).take 4) :=
  ⟨by decide, (claim_C7_generate_share_code ( "abcd1234".data) ( "Phoenix".data)
    1700000000).1 (by decide)⟩

/-- C8: `extract_keywords` lowercases, splits on whitespace, removes
every token in the stop-word set or of length at most 3, joins the first
three survivors with single spaces, and falls back to the literal
`"the unnamed"` when nothing survives; two concrete runs illustrate both
branches. -/
theorem claim_C8_extract_keywords (text : List Char) :
    (extract_keywords text =
      (let toks := (pySplit (lowerStr text)).filter
          (fun w => !(stop_words.contains w || decide (w.length ≤ 3)))
       if toks.isEmpty then ( "the unnamed".data)
       else joinWith ( " ".data) (toks.take 3))) ∧
    extract_keywords ( "The WORLD crumbled but hope remained".data) =
      ( "world crumbled hope".data) ∧
    extract_keywords ( "it is so".data) = ( "the unnamed".data) := by
  refine ⟨?_, by decide, by decide⟩
  have hp : ∀ w : List Char,
      (!stop_words.contains w && decide (3 < w.length)) =
      (!(stop_words.contains w || decide (w.length ≤ 3))) := by
    intro w
    cases hc : stop_words.contains w <;>
      by_cases hl : w.length ≤ 3 <;>
        simp [hc, hl, Nat.lt_of_not_le, Nat.not_lt.mpr]
  have hfc : (pySplit (lowerStr text)).filter
      (fun w => !stop_words.contains w && decide (3 < w.length)) =
      (pySplit (lowerStr text)).filter
        (fun w => !(stop_words.contains w || decide (w.length ≤ 3))) :=
    List.filter_congr (fun w _ => hp w)
  simp only [extract_keywords, hfc]

end ReflexionMirror
